import Mathlib

/-!
# Verification of the jewelry-order analytics engine

Shallow embedding of the analytics core of the `rcj` repository
(`analytics/utils/date_utils.py`, `analytics/utils/calculations.py`,
`analytics/servicesv2.py`, `analytics/views.py`, `analytics/serializers.py`,
`orders/views.py`, `orders/models.py`).

Conventions of the embedding:
* instants (Python timezone-aware `datetime`) are microseconds since the epoch, `ℤ`;
* calendar dates (Python `date`) are days since the epoch, `ℤ`;
* a raw `YYYY-MM-DD` query-string date is modelled by its parse result
  `Option ℤ` (`none` = `strptime` raises `ValueError`), so an optional
  request parameter is `Option (Option ℤ)`;
* Python `round(x, n)` (round half to even) is `bankersRound`;
* Django querysets are Lean lists of record structures, and `.filter(...)`
  is `List.filter`.
-/

namespace Rcj

/-- Microseconds in one calendar day. -/
def usecPerDay : ℤ := 86400000000

/-- Microseconds in seven days (`timedelta(days=7)`). -/
def usecPerWeek : ℤ := 7 * usecPerDay

/-- `datetime.max.time()` offset from midnight: `23:59:59.999999`. -/
def endOfDayMax : ℤ := 86399999999

/-- Offset of `23:59:59` (second precision, as built by
`parse_date_range`'s `.replace(hour=23, minute=59, second=59)`). -/
def endOfDaySec : ℤ := 86399000000

/-- The calendar date (days since epoch) holding an instant, i.e. Python's
`.date()` / Django's `__date` lookup. -/
def dateOf (t : ℤ) : ℤ := t / usecPerDay

/-- Midnight of the day holding `t`, i.e. `t.replace(hour=0, minute=0,
second=0, microsecond=0)`. -/
def floorToDay (t : ℤ) : ℤ := dateOf t * usecPerDay

/-- Civil calendar: (year, month, day) of a day number (days since
1970-01-01).  Standard days-to-civil conversion; `/` and `%` on `ℤ` are
Euclidean, which is the floor division the algorithm needs. -/
def civilFromDays (z : ℤ) : ℤ × ℤ × ℤ :=
  let z' := z + 719468
  let era := z' / 146097
  let doe := z' - era * 146097
  let yoe := (doe - doe / 1460 + doe / 36524 - doe / 146096) / 365
  let y := yoe + era * 400
  let doy := doe - (365 * yoe + yoe / 4 - yoe / 100)
  let mp := (5 * doy + 2) / 153
  let d := doy - (153 * mp + 2) / 5 + 1
  let m := mp + (if mp < 10 then 3 else -9)
  (y + (if m ≤ 2 then 1 else 0), m, d)

/-- Civil calendar: day number of a (year, month, day) triple. -/
def daysFromCivil (y m d : ℤ) : ℤ :=
  let y' := y - (if m ≤ 2 then 1 else 0)
  let era := y' / 400
  let yoe := y' - era * 400
  let doy := (153 * (m + (if m > 2 then -3 else 9)) + 2) / 5 + d - 1
  let doe := yoe * 365 + yoe / 4 - yoe / 100 + doy
  era * 146097 + doe - 719468

/-- Python `weekday()` of a day number (Monday = 0; 1970-01-01 was a
Thursday, weekday 3). -/
def weekdayOf (z : ℤ) : ℤ := (z + 3) % 7

/-- Round half to even to an integer, Python's `round(x)` on an exact value. -/
def bankersRound (x : ℚ) : ℤ :=
  let f : ℤ := ⌊x⌋
  let r : ℚ := x - f
  if r < 1/2 then f
  else if r > 1/2 then f + 1
  else if f % 2 = 0 then f else f + 1

/-- Python `round(x, 2)`. -/
def roundTo2 (x : ℚ) : ℚ := (bankersRound (x * 100) : ℚ) / 100

/-- Python `round(x, 1)`. -/
def roundTo1 (x : ℚ) : ℚ := (bankersRound (x * 10) : ℚ) / 10

/-- Render a number of tenths as Python renders a one-decimal float:
`23` ↦ `"2.3"`, `-52` ↦ `"-5.2"`. -/
def renderTenths (n : ℤ) : String :=
  let s := if n < 0 then "-" else ""
  let a := n.natAbs
  s ++ toString (a / 10) ++ "." ++ toString (a % 10)

/-! ## Metric primitives (`analytics/utils/calculations.py`) -/

/-- `calculate_percentage(part, total)` from `analytics/utils/calculations.py`:
`0.0` when `total == 0`, else `round(part / total * 100, 2)`. -/
def calculate_percentage (part total : ℤ) : ℚ :=
  if total = 0 then 0
  else roundTo2 ((part : ℚ) / (total : ℚ) * 100)

/-- `safe_avg(values)` from `analytics/utils/calculations.py`. -/
def safe_avg (values : List ℚ) : ℚ :=
  if values.isEmpty then 0
  else roundTo2 (values.sum / (values.length : ℚ))

/-- `format_currency(amount)` from `analytics/utils/calculations.py`. -/
def format_currency (amount : ℚ) : ℚ := roundTo2 amount

/-! ## Date utilities (`analytics/utils/date_utils.py`) -/

/-- `calculate_growth_percentage(current, previous)` from
`analytics/utils/date_utils.py`.  Returns the formatted signed string; the
zero-previous branches return the literals `"+100%"` and `"0%"`. -/
def calculate_growth_percentage (current previous : ℚ) : String :=
  if previous = 0 then
    (if current > 0 then "+100%" else "0%")
  else
    let growth := (current - previous) / previous * 100
    let sign := if growth ≥ 0 then "+" else ""
    sign ++ renderTenths (bankersRound (growth * 10)) ++ "%"

/-- `get_previous_period(start_date, end_date)` from
`analytics/utils/date_utils.py`: `duration = end - start; prev_end = start;
prev_start = prev_end - duration`.  Instants in microseconds. -/
def get_previous_period (start_date end_date : ℤ) : ℤ × ℤ :=
  let duration := end_date - start_date
  let prev_end := start_date
  let prev_start := prev_end - duration
  (prev_start, prev_end)

/-- `parse_date_range(start_date, end_date, period)` from
`analytics/utils/date_utils.py`.  `now` is passed explicitly
(`timezone.now()` in the source); raw date strings are modelled by their
parse result.  Unparseable explicit dates fall back to the trailing-30-day
window, exactly as the `except ValueError` branch does. -/
def parse_date_range (start_date end_date : Option (Option ℤ))
    (period : Option String) (now : ℤ) : ℤ × ℤ :=
  match period with
  | some p =>
    if p = "today" then (floorToDay now, now)
    else if p = "week" then (now - usecPerWeek, now)
    else if p = "month" then
      let c := civilFromDays (dateOf now)
      (daysFromCivil c.1 c.2.1 1 * usecPerDay, now)
    else if p = "quarter" then (now - 90 * usecPerDay, now)
    else if p = "year" then (now - 365 * usecPerDay, now)
    else (now - 30 * usecPerDay, now)
  | none =>
    match start_date, end_date with
    | some sd, some ed =>
      match sd, ed with
      | some s, some e => (s * usecPerDay, e * usecPerDay + endOfDaySec)
      | _, _ => (now - 30 * usecPerDay, now)
    | _, _ => (now - 30 * usecPerDay, now)

/-! ## `AdminAnalyticsService` date handling (`analytics/servicesv2.py`) -/

/-- `AdminAnalyticsService._get_date_range(time_filter, start_date,
end_date)`.  Returns a pair of optional calendar dates (`None, None` when
no filter applies or a date string fails to parse); `self.now` is passed
explicitly.  Note the `elif` chain: an unrecognized `time_filter` with no
explicit dates falls through to `(None, None)` — an unbounded range. -/
def svc_get_date_range (time_filter : Option String)
    (start_date end_date : Option (Option ℤ)) (now : ℤ) : Option ℤ × Option ℤ :=
  let today := dateOf now
  if time_filter = some "today" then (some today, some today)
  else if time_filter = some "week" then (some (today - weekdayOf today), some today)
  else if time_filter = some "month" then
    let c := civilFromDays today
    (some (daysFromCivil c.1 c.2.1 1), some today)
  else if time_filter = some "quarter" then
    let c := civilFromDays today
    let qm := (c.2.1 - 1) / 3 * 3 + 1
    (some (daysFromCivil c.1 qm 1), some today)
  else if time_filter = some "year" then
    let c := civilFromDays today
    (some (daysFromCivil c.1 1 1), some today)
  else
    match start_date, end_date with
    | some sd, some ed =>
      match sd, ed with
      | some s, some e => (some s, some e)
      | _, _ => (none, none)
    | _, _ => (none, none)

/-- `AdminAnalyticsService._get_previous_period(date_start, date_end)`:
`prev_end = date_start - timedelta(days=1); prev_start = prev_end - delta`.
Operates on calendar dates (days). -/
def svc_get_previous_period (date_start date_end : Option ℤ) : Option ℤ × Option ℤ :=
  match date_start, date_end with
  | some s, some e =>
    let delta := e - s
    let prev_end := s - 1
    let prev_start := prev_end - delta
    (some prev_start, some prev_end)
  | _, _ => (none, none)

/-- `AdminAnalyticsService._calculate_percentage_change(current, previous)`. -/
def svc_percentage_change (current previous : ℚ) : ℚ :=
  if previous = 0 then (if current > 0 then 100 else 0)
  else roundTo2 ((current - previous) / previous * 100)

/-! ## Request validation (`analytics/serializers.py`) -/

/-- `DateRangeInputSerializer` acceptance (`analytics/serializers.py`):
`DateField.to_internal_value` rejects an unparseable date string,
`ChoiceField` rejects a period keyword outside the enum, and `validate`
rejects `start_date > end_date` when both are present. -/
def date_range_serializer_valid (start_date end_date : Option (Option ℤ))
    (period : Option String) : Bool :=
  (match start_date with | some none => false | _ => true) &&
  (match end_date with | some none => false | _ => true) &&
  (match period with
   | some p => ["today", "week", "month", "quarter", "year"].contains p
   | none => true) &&
  (match start_date, end_date with
   | some (some s), some (some e) => !(decide (s > e))
   | _, _ => true)

/-! ## View-level date ranges (`analytics/views.py`) -/

/-- `CommunicationAnalyticsViewV2._calculate_date_range(time_filter,
start_date, end_date)` (`analytics/views.py`).  With explicit dates the end
is the bare `strptime` result — midnight of `end_date`, with no end-of-day
adjustment; an unparseable string raises `ValueError` (modelled as
`.error`). -/
def commv2_calculate_date_range (time_filter : String)
    (start_date end_date : Option (Option ℤ)) (now : ℤ) :
    Except String (ℤ × ℤ) :=
  match start_date, end_date with
  | some sd, some ed =>
    match sd, ed with
    | some s, some e => .ok (s * usecPerDay, e * usecPerDay)
    | _, _ => .error "ValueError"
  | _, _ =>
    if time_filter = "today" then .ok (floorToDay now, now)
    else if time_filter = "week" then .ok (now - usecPerWeek, now)
    else if time_filter = "month" then .ok (now - 30 * usecPerDay, now)
    else if time_filter = "quarter" then .ok (now - 90 * usecPerDay, now)
    else .ok (now - 365 * usecPerDay, now)

/-- `CustomerAnalyticsView._calculate_date_range(time_filter, start_date,
end_date)` (`analytics/views.py`).  With explicit dates the end is
`datetime.combine(end.date(), datetime.max.time())` — `23:59:59.999999` of
`end_date`. -/
def cust_calculate_date_range (time_filter : String)
    (start_date end_date : Option (Option ℤ)) (now : ℤ) :
    Except String (ℤ × ℤ) :=
  match start_date, end_date with
  | some sd, some ed =>
    match sd, ed with
    | some s, some e => .ok (s * usecPerDay, e * usecPerDay + endOfDayMax)
    | _, _ => .error "ValueError"
  | _, _ =>
    if time_filter = "today" then .ok (floorToDay now, now)
    else if time_filter = "week" then .ok (now - usecPerWeek, now)
    else if time_filter = "month" then .ok (now - 30 * usecPerDay, now)
    else if time_filter = "quarter" then .ok (now - 90 * usecPerDay, now)
    else .ok (now - 365 * usecPerDay, now)

/-- `OrderStatusDistributionAPIView.get`'s explicit end-date handling
(`analytics/views.py`): `datetime.combine(end_date_obj, datetime.max.time())`,
i.e. `23:59:59.999999` of `end_date`. -/
def order_status_view_end_bound (e : ℤ) : ℤ := e * usecPerDay + endOfDayMax

/-! ## Order data model (`orders/models.py`) -/

/-- One `Order` row, restricted to the fields the analytics claims read. -/
structure OrderRec where
  order_status : String
  created_at : ℤ
  deriving Repr, DecidableEq

/-- `Order.ORDER_STATUS_CHOICES` (`orders/models.py`): the nine valid
lifecycle statuses. -/
def order_status_choices : List String :=
  ["declined", "new", "confirmed", "cad_done", "user_confirmed",
   "rpt_done", "casting", "ready", "delivered"]

/-- The synthetic `in_progress` union used by both status-distribution
implementations (`servicesv2.py` and `OrderStatusDistributionAPIView`). -/
def in_progress_statuses : List String :=
  ["confirmed", "cad_done", "user_confirmed", "rpt_done", "casting", "ready"]

/-- `AdminAnalyticsService._filter_by_date` (`analytics/servicesv2.py`):
keep rows whose `created_at__date` lies in `[date_start, date_end]`; no
filtering when either bound is `None`. -/
def filter_by_date (qs : List OrderRec) (date_start date_end : Option ℤ) :
    List OrderRec :=
  match date_start, date_end with
  | some ds, some de =>
    qs.filter (fun o => decide (ds ≤ dateOf o.created_at) &&
                        decide (dateOf o.created_at ≤ de))
  | _, _ => qs

/-- One status-distribution bucket (`{'status', 'count', 'percentage'}`). -/
structure StatusBucket where
  status : String
  count : ℕ
  percentage : ℚ
  deriving Repr, DecidableEq

/-- The status-distribution list built by
`AdminAnalyticsService._calculate_order_analytics`
(`analytics/servicesv2.py`): counts for `delivered`, the `in_progress`
union, `new` and `declined` over the date-filtered queryset, with
percentage of the filtered total. -/
def status_distribution (orders_qs : List OrderRec) : List StatusBucket :=
  let total_orders := orders_qs.length
  let delivered_count := (orders_qs.filter (fun o => o.order_status = "delivered")).length
  let new_count := (orders_qs.filter (fun o => o.order_status = "new")).length
  let declined_count := (orders_qs.filter (fun o => o.order_status = "declined")).length
  let in_progress_count :=
    (orders_qs.filter (fun o => o.order_status ∈ in_progress_statuses)).length
  let pct := fun (count : ℕ) =>
    if total_orders > 0 then roundTo2 ((count : ℚ) / (total_orders : ℚ) * 100) else 0
  [⟨"delivered", delivered_count, pct delivered_count⟩,
   ⟨"in_progress", in_progress_count, pct in_progress_count⟩,
   ⟨"new", new_count, pct new_count⟩,
   ⟨"declined", declined_count, pct declined_count⟩]

/-- One stage-performance entry
(`{'stage', 'avg_time_days', 'avg_time_label', 'status'}`). -/
structure StagePerf where
  stage : String
  avg_time_days : ℚ
  avg_time_label : String
  status : String
  deriving Repr, DecidableEq

/-- `AdminAnalyticsService._calculate_stage_performance`
(`analytics/servicesv2.py`): a literal list, built from no queryset — it
takes no data-dependent input in the source (only `self`). -/
def calculate_stage_performance : List StagePerf :=
  [⟨"new_to_confirmed", 23/10, "2.3 days", "good"⟩,
   ⟨"cad_design", 35/10, "3.5 days", "good"⟩,
   ⟨"user_approval", 12/10, "1.2 days", "good"⟩,
   ⟨"rpt_stage", 28/10, "2.8 days", "warning"⟩,
   ⟨"casting", 41/10, "4.1 days", "good"⟩,
   ⟨"final_prep", 15/10, "1.5 days", "good"⟩]

/-- The slice of `AdminAnalyticsService._calculate_order_analytics`'s
result the claims are about.  (The `product_preferences`, `file_activity`
and `timeline_alerts` sections are independent sub-reports over other
tables and are not read by any claim.) -/
structure OrderAnalytics where
  status_distribution : List StatusBucket
  completed_orders : ℕ
  pending_approvals : ℕ
  declined_orders : ℕ
  stage_performance : List StagePerf
  deriving Repr, DecidableEq

/-- `AdminAnalyticsService._calculate_order_analytics(date_start, date_end)`
(`analytics/servicesv2.py`), on the order table. -/
def calculate_order_analytics (orders : List OrderRec)
    (date_start date_end : Option ℤ) : OrderAnalytics :=
  let orders_qs := filter_by_date orders date_start date_end
  { status_distribution := status_distribution orders_qs
    completed_orders :=
      (orders_qs.filter (fun o => o.order_status = "delivered")).length
    pending_approvals :=
      (orders_qs.filter (fun o => o.order_status = "cad_done")).length
    declined_orders :=
      (orders_qs.filter (fun o => o.order_status = "declined")).length
    stage_performance := calculate_stage_performance }

/-! ## Daily bucketing -/

/-- One daily bucket; the date key is the day number (the source renders it
with `strftime('%Y-%m-%d')`). -/
structure DailyBucket where
  date : ℤ
  orders : ℕ
  deriving Repr, DecidableEq

/-- Orders created on day `d` — the value the grouped
`values('date').annotate(orders=Count('id'))` dict holds at `d`
(`.get(d, 0)` yields 0 when no row exists). -/
def orders_on_day (orders : List OrderRec) (d : ℤ) : ℕ :=
  (orders.filter (fun o => dateOf o.created_at = d)).length

/-- The `while current_date <= end_date` fill loop of
`TimeTrendsAnalyticsAPIView._get_daily_orders` (`analytics/views.py`),
with the remaining day count as fuel. -/
def fill_daily (orders : List OrderRec) (cur date_end : ℤ) : ℕ → List DailyBucket
  | 0 => []
  | n + 1 =>
    if cur ≤ date_end then
      ⟨cur, orders_on_day orders cur⟩ :: fill_daily orders (cur + 1) date_end n
    else []

/-- `TimeTrendsAnalyticsAPIView._get_daily_orders(start_date, end_date)`
(`analytics/views.py`): groups orders by creation day and then densely
fills every day of `[start_date, end_date]`, missing days at count 0. -/
def tt_get_daily_orders (orders : List OrderRec) (start_date date_end : ℤ) :
    List DailyBucket :=
  fill_daily orders start_date date_end (date_end - start_date + 1).toNat

/-- Insert a day into an ascending day list. -/
def insert_day (d : ℤ) : List ℤ → List ℤ
  | [] => [d]
  | x :: xs => if d ≤ x then d :: x :: xs else x :: insert_day d xs

/-- Sort a day list ascending (insertion sort). -/
def sort_days : List ℤ → List ℤ
  | [] => []
  | x :: xs => insert_day x (sort_days xs)

/-- Drop duplicate days, keeping one occurrence of each. -/
def dedup_days : List ℤ → List ℤ
  | [] => []
  | d :: ds => let r := dedup_days ds; if d ∈ r then r else d :: r

/-- The distinct creation days present in a queryset, ascending — the keys
produced by `annotate(date=TruncDate(...)).values('date')...order_by('date')`. -/
def distinct_days (orders : List OrderRec) : List ℤ :=
  sort_days (dedup_days (orders.map (fun o => dateOf o.created_at)))

/-- `AdminAnalyticsService._calculate_daily_orders(date_start, date_end)`
(`analytics/servicesv2.py`): one bucket per day **that has at least one
order** in the range — no gap filling.  `None` bounds default to the last
7 days ending today. -/
def svc_calculate_daily_orders (orders : List OrderRec)
    (date_start date_end : Option ℤ) (now : ℤ) : List DailyBucket :=
  let de := match date_start, date_end with
            | some _, some e => e
            | _, _ => dateOf now
  let ds := match date_start, date_end with
            | some s, some _ => s
            | _, _ => de - 6
  let in_range := orders.filter
    (fun o => decide (ds ≤ dateOf o.created_at) && decide (dateOf o.created_at ≤ de))
  (distinct_days in_range).map (fun d => ⟨d, orders_on_day in_range d⟩)

/-! ## Status-transition reconstructor
(`StagePerformanceAPIView`, `analytics/views.py`) -/

/-- One `auditlog` `LogEntry` for an order: the timestamp and, when the
entry's `changes` dict has an `order_status` key, the `[old, new]` pair
(the old value is `None` on the creation entry). -/
structure AuditLogEntry where
  timestamp : ℤ
  order_status_change : Option (Option String × String)
  deriving Repr, DecidableEq

/-- An order together with its audit trail. -/
structure AuditOrder where
  pk : ℕ
  order_status : String
  created_at : ℤ
  logs : List AuditLogEntry
  deriving Repr, DecidableEq

/-- The fixed lifecycle order used by
`StagePerformanceAPIView._get_statuses_after` (`analytics/views.py`). -/
def status_order_list : List String :=
  ["new", "confirmed", "cad_done", "user_confirmed", "rpt_done",
   "casting", "ready", "delivered"]

/-- Suffix of a list after the first occurrence of `s` (`[]` when absent),
mirroring `status_order.index(status); status_order[index + 1:]` with the
`ValueError` fallback. -/
def suffix_after (s : String) : List String → List String
  | [] => []
  | x :: xs => if x = s then xs else suffix_after s xs

/-- `StagePerformanceAPIView._get_statuses_after(status)`
(`analytics/views.py`): every status after the given one in the fixed
lifecycle order; unknown statuses yield `[]`. -/
def get_statuses_after (s : String) : List String :=
  suffix_after s status_order_list

/-- Insert a log entry into a timestamp-sorted list (ascending). -/
def insert_by_time (l : AuditLogEntry) : List AuditLogEntry → List AuditLogEntry
  | [] => [l]
  | x :: xs => if l.timestamp < x.timestamp then l :: x :: xs
               else x :: insert_by_time l xs

/-- `order_by('timestamp')` on an order's log entries. -/
def sort_by_time : List AuditLogEntry → List AuditLogEntry
  | [] => []
  | x :: xs => insert_by_time x (sort_by_time xs)

/-- The per-order scan loop of
`StagePerformanceAPIView._calculate_stage_time_from_auditlog`
(`analytics/views.py`): walk the time-ordered entries; every change whose
old value equals `from_status` updates `from_timestamp`; a change whose new
value equals `to_status` records `to_timestamp - from_timestamp` and breaks
when `from_timestamp` is set (note both can fire on the same entry). -/
def scan_transition (from_status to_status : String) (from_ts : Option ℤ) :
    List AuditLogEntry → Option ℤ
  | [] => none
  | log :: rest =>
    match log.order_status_change with
    | none => scan_transition from_status to_status from_ts rest
    | some (old_s, new_s) =>
      let from_ts' := if old_s = some from_status then some log.timestamp else from_ts
      if new_s = to_status then
        match from_ts' with
        | some f => some (log.timestamp - f)
        | none => scan_transition from_status to_status from_ts' rest
      else scan_transition from_status to_status from_ts' rest

/-- The result dict of `_calculate_stage_time_from_auditlog`
(`{'days', 'label', 'status'}`). -/
structure StageTime where
  days : ℚ
  label : String
  status : String
  deriving Repr, DecidableEq

/-- The queryset-and-scan layer of
`StagePerformanceAPIView._calculate_stage_time_from_auditlog(from_status,
to_status, start_date, end_date)` (`analytics/views.py`): filter orders by
creation date, keep those whose current status is `to_status` or past it,
and scan each order's time-ordered audit entries for a transition pair —
the list of recorded `time_diff`s, in microseconds. -/
def stage_time_diffs_usec (orders : List AuditOrder)
    (from_status to_status : String) (start_date end_date : Option ℤ) :
    List ℤ :=
  let qs₁ : List AuditOrder := match start_date with
             | some s => orders.filter (fun o => decide (s * usecPerDay ≤ o.created_at))
             | none => orders
  let qs₂ : List AuditOrder := match end_date with
             | some e => qs₁.filter (fun o => decide (o.created_at ≤ e * usecPerDay + endOfDayMax))
             | none => qs₁
  let targets := qs₂.filter (fun o =>
    o.order_status = to_status || (get_statuses_after to_status).contains o.order_status)
  targets.filterMap (fun o =>
    scan_transition from_status to_status none (sort_by_time o.logs))

/-- The outer layer of `_calculate_stage_time_from_auditlog`: convert each
recorded difference to days (`total_seconds() / 86400`), average, and
round; an empty collection yields the `N/A` sentinel. -/
def calculate_stage_time_from_auditlog (orders : List AuditOrder)
    (from_status to_status : String) (start_date end_date : Option ℤ) :
    StageTime :=
  let time_differences : List ℚ :=
    (stage_time_diffs_usec orders from_status to_status start_date end_date).map
      (fun d : ℤ => (d : ℚ) / (usecPerDay : ℚ))
  if time_differences.isEmpty then ⟨0, "N/A", "good"⟩
  else
    let avg_days := time_differences.sum / (time_differences.length : ℚ)
    ⟨roundTo1 avg_days, renderTenths (bankersRound (avg_days * 10)) ++ " days", "good"⟩

/-! ## Randomness in `admin_dashboard_stats` (`orders/views.py`) -/

/-- One entry of the `recent_orders` list built by `admin_dashboard_stats`,
restricted to the status and the `priority` field. -/
structure RecentOrderEntry where
  status : String
  priority : String
  deriving Repr, DecidableEq

/-- The `recent_orders` loop of `admin_dashboard_stats` (`orders/views.py`):
each of the most recent orders gets `priority =
random.choice(['low', 'medium', 'high', 'urgent'])`.  The random source is
modelled as an oracle `pick` consumed one draw per order. -/
def admin_dashboard_recent_orders (recent : List OrderRec)
    (pick : ℕ → String) : List RecentOrderEntry :=
  (recent.enum).map (fun oi => ⟨oi.2.order_status, pick oi.1⟩)

/-- The deterministic core of `AdminAnalyticsService.get_full_analysis`
(`analytics/servicesv2.py`) over the order table: resolve the range from
the request params, then assemble the order analytics and daily-order
sections.  The service draws no randomness, which the embedding makes
explicit by threading an unused random oracle `rand`. -/
def get_full_analysis_orders (orders : List OrderRec)
    (time_filter : Option String) (start_date end_date : Option (Option ℤ))
    (now : ℤ) (_rand : ℕ → ℕ) : OrderAnalytics × List DailyBucket :=
  let r := svc_get_date_range time_filter start_date end_date now
  (calculate_order_analytics orders r.1 r.2,
   svc_calculate_daily_orders orders r.1 r.2 now)

/-! ## Spec-modelled period resolution (`spec.md` §4.1, §7)

The spec's error taxonomy (`InvalidRangeError`) exists nowhere in the
source; this reference definition follows the spec's words and is compared
against the source resolvers. -/

/-- The spec's `InvalidRangeError`: start date after end date, or an
unparseable date string (`spec.md` §7). -/
inductive InvalidRangeError where
  | startAfterEnd
  | unparseable
  deriving Repr, DecidableEq

/-- Modelled from the spec: period resolution as `spec.md` §4.1/§7 demands
it — explicit dates with `start_date > end_date` or an unparseable date
string fail with `InvalidRangeError` before any aggregation, everything
else resolves to a window.  (No source function has this error channel;
this is the reference for the refinement claims C6.) -/
def resolve_period_spec (start_date end_date : Option (Option ℤ))
    (period : Option String) (now : ℤ) : Except InvalidRangeError (ℤ × ℤ) :=
  match start_date, end_date with
  | some sd, some ed =>
    match sd, ed with
    | some s, some e =>
      if s > e then .error .startAfterEnd
      else .ok (s * usecPerDay, e * usecPerDay + endOfDayMax)
    | _, _ => .error .unparseable
  | some none, _ => .error .unparseable
  | _, some none => .error .unparseable
  | _, _ =>
    match period with
    | some p =>
      if p = "today" then .ok (floorToDay now, now)
      else .ok (now - 30 * usecPerDay, now)
    | none => .ok (now - 30 * usecPerDay, now)

/-! ## Claim C1: previous-period derivation -/

/-- Claim C1, counterexample.  At `(start, end) = (100, 200)` the
previous-period derivation of `analytics/utils/date_utils.py` returns
`prev_end = start`, not `start - 1` as the claim states, and the instant
`start` lies inside both the previous window `[0, 100]` and the current
window `[100, 200]` — the two closed windows overlap at the boundary. -/
theorem previous_period_claim_cex :
    (get_previous_period 100 200).2 ≠ 100 - 1 ∧
    (get_previous_period 100 200).1 ≤ 100 ∧ 100 ≤ (get_previous_period 100 200).2 := by
  decide

/-- Claim C1, amended.  For `start ≤ end` both derivations return a window
of identical duration: `get_previous_period` (date_utils) ends exactly *at*
`start` (`prev_end = start`, so the closed windows share that one instant),
while `AdminAnalyticsService._get_previous_period` (servicesv2, on calendar
dates) ends at `start - 1` day and never overlaps the current period. -/
theorem previous_period_windows (s e : ℤ) (h : s ≤ e) :
    (get_previous_period s e).2 = s ∧
    (get_previous_period s e).2 - (get_previous_period s e).1 = e - s ∧
    (get_previous_period s e).1 ≤ s ∧
    svc_get_previous_period (some s) (some e) = (some (s - 1 - (e - s)), some (s - 1)) ∧
    (s - 1) - (s - 1 - (e - s)) = e - s ∧
    s - 1 < s := by
  refine ⟨rfl, ?_, ?_, rfl, by omega, by omega⟩ <;>
    (simp [get_previous_period]; try omega)

/-- Claim C1, witness. -/
theorem previous_period_windows_witness :
    (get_previous_period 100 200).2 = 100 ∧
    (get_previous_period 100 200).2 - (get_previous_period 100 200).1 = 100 ∧
    (get_previous_period 100 200).1 ≤ 100 ∧
    svc_get_previous_period (some 100) (some 200) = (some (-1), some 99) ∧
    (99 : ℤ) - (-1) = 100 ∧ (99 : ℤ) < 100 := by
  have := previous_period_windows 100 200 (by decide)
  simpa using this

/-! ## Claim C10: hard-coded stage performance -/

/-- Claim C10.  The `stage_performance` section of the order analytics is a
constant: for every order table and date range,
`_calculate_stage_performance` yields the same fixed six stages with
hard-coded average times 2.3, 3.5, 1.2, 2.8, 4.1 and 1.5 days; it reads no
order or audit data. -/
theorem stage_performance_constant (orders : List OrderRec)
    (date_start date_end : Option ℤ) :
    (calculate_order_analytics orders date_start date_end).stage_performance =
      [⟨"new_to_confirmed", 23/10, "2.3 days", "good"⟩,
       ⟨"cad_design", 35/10, "3.5 days", "good"⟩,
       ⟨"user_approval", 12/10, "1.2 days", "good"⟩,
       ⟨"rpt_stage", 28/10, "2.8 days", "warning"⟩,
       ⟨"casting", 41/10, "4.1 days", "good"⟩,
       ⟨"final_prep", 15/10, "1.5 days", "good"⟩] ∧
    (calculate_order_analytics orders date_start date_end).stage_performance =
      (calculate_order_analytics [] none none).stage_performance := by
  exact ⟨rfl, rfl⟩

/-! ## Claim C9: report idempotence and randomness -/

/-- Claim C9, counterexample.  `admin_dashboard_stats` (`orders/views.py`)
draws `random.choice(['low', 'medium', 'high', 'urgent'])` for each recent
order's `priority` field: over the same one-order dataset, two runs whose
random draws differ produce different output, so the report is not
idempotent. -/
theorem random_priority_cex :
    admin_dashboard_recent_orders [⟨"new", 0⟩] (fun _ => "low") ≠
      admin_dashboard_recent_orders [⟨"new", 0⟩] (fun _ => "high") := by
  decide

/-- Claim C9, amended.  The `AdminAnalyticsService.get_full_analysis` path
draws no randomness — its output over the order table is the same under any
two random oracles — while `admin_dashboard_stats`'s recent-orders priority
is random (see the counterexample). -/
theorem full_analysis_deterministic (orders : List OrderRec)
    (time_filter : Option String) (start_date end_date : Option (Option ℤ))
    (now : ℤ) (r₁ r₂ : ℕ → ℕ) :
    get_full_analysis_orders orders time_filter start_date end_date now r₁ =
      get_full_analysis_orders orders time_filter start_date end_date now r₂ := by
  rfl

/-! ## Claim C5: metric primitives at the zero/empty boundary -/

/-- Claim C5.  The metric primitives are total at the zero/empty boundary:
`calculate_percentage part 0 = 0`, otherwise
`round(part / total * 100, 2)`; `calculate_growth_percentage 0 0 = "0%"`
and `= "+100%"` for positive current over a zero previous;
`safe_avg [] = 0`. -/
theorem metric_primitives_total (part total : ℤ) (current : ℚ)
    (ht : total ≠ 0) (hc : 0 < current) :
    calculate_percentage part 0 = 0 ∧
    calculate_percentage part total = roundTo2 ((part : ℚ) / (total : ℚ) * 100) ∧
    calculate_growth_percentage 0 0 = "0%" ∧
    calculate_growth_percentage current 0 = "+100%" ∧
    safe_avg [] = 0 := by
  refine ⟨rfl, ?_, rfl, ?_, rfl⟩
  · simp [calculate_percentage, ht]
  · simp [calculate_growth_percentage, hc]

/-- Claim C5, witness. -/
theorem metric_primitives_total_witness :
    calculate_percentage 3 0 = 0 ∧
    calculate_percentage 3 4 = roundTo2 ((3 : ℚ) / (4 : ℚ) * 100) ∧
    calculate_growth_percentage 0 0 = "0%" ∧
    calculate_growth_percentage 5 0 = "+100%" ∧
    safe_avg [] = 0 :=
  metric_primitives_total 3 4 5 (by decide) (by norm_num)

/-! ## Claim C2: stage-duration reconstruction -/

/-- Claim C2, failing input.  An order now in `cad_done` whose audit trail
is `[→new @ 0, new→confirmed @ day 5, confirmed→cad_done @ day 8]`: the
claim says the `new→confirmed` duration is `T1 - T0 = 5` days, but the
reconstructor records `0` — the transition *away from* `new` and the
transition *into* `confirmed` are the same audit entry, so
`from_timestamp = to_timestamp = T1` and the recorded elapsed time of every
directly-observed transition is zero. -/
theorem stage_time_direct_transition_zero :
    calculate_stage_time_from_auditlog
      [⟨1, "cad_done", 0,
        [⟨0, some (none, "new")⟩,
         ⟨432000000000, some (some "new", "confirmed")⟩,
         ⟨691200000000, some (some "confirmed", "cad_done")⟩]⟩]
      "new" "confirmed" none none = ⟨0, "0.0 days", "good"⟩ ∧
    ((432000000000 - 0 : ℤ) : ℚ) / (usecPerDay : ℚ) = 5 ∧
    (5 : ℚ) ≠ 0 := by
  have h : stage_time_diffs_usec
      [⟨1, "cad_done", 0,
        [⟨0, some (none, "new")⟩,
         ⟨432000000000, some (some "new", "confirmed")⟩,
         ⟨691200000000, some (some "confirmed", "cad_done")⟩]⟩]
      "new" "confirmed" none none = [0] := rfl
  refine ⟨?_, by norm_num [usecPerDay], by norm_num⟩
  simp only [calculate_stage_time_from_auditlog, h]
  norm_num [roundTo1, bankersRound, renderTenths]
  decide

/-! ## Claim C8: explicit end dates and end-of-day inclusivity -/

/-- Claim C8, counterexample.  `CommunicationAnalyticsViewV2` resolves an
explicit `end_date` to bare midnight: with `end_date` = day 105 the
resolved range ends at `105 * usecPerDay`, and noon of day 105 — an
instant of that calendar day — lies outside the range. -/
theorem commv2_midnight_cex :
    commv2_calculate_date_range "month" (some (some 100)) (some (some 105)) 0 =
      .ok (100 * usecPerDay, 105 * usecPerDay) ∧
    dateOf (105 * usecPerDay + 43200000000) = 105 ∧
    ¬(105 * usecPerDay + 43200000000 ≤ 105 * usecPerDay) := by
  refine ⟨rfl, by decide, by decide⟩

/-- Claim C8, amended.  With explicit dates, `parse_date_range` ends the
period at `23:59:59` of `end_date`, `CustomerAnalyticsView` and
`OrderStatusDistributionAPIView` at `23:59:59.999999` (the latter bound
contains every instant of the calendar day) — but
`CommunicationAnalyticsViewV2` ends it at midnight of `end_date`,
excluding the rest of that day. -/
theorem explicit_end_date_bounds (s e now : ℤ) (tf : String) :
    parse_date_range (some (some s)) (some (some e)) none now =
      (s * usecPerDay, e * usecPerDay + endOfDaySec) ∧
    cust_calculate_date_range tf (some (some s)) (some (some e)) now =
      .ok (s * usecPerDay, e * usecPerDay + endOfDayMax) ∧
    order_status_view_end_bound e = e * usecPerDay + endOfDayMax ∧
    commv2_calculate_date_range tf (some (some s)) (some (some e)) now =
      .ok (s * usecPerDay, e * usecPerDay) ∧
    (∀ t : ℤ, dateOf t = e → t ≤ e * usecPerDay + endOfDayMax) := by
  refine ⟨rfl, rfl, rfl, rfl, fun t h => ?_⟩
  simp only [dateOf, usecPerDay, endOfDayMax] at h ⊢
  omega

/-- Claim C8, witness. -/
theorem explicit_end_date_bounds_witness :
    (172800000005 : ℤ) ≤ 2 * usecPerDay + endOfDayMax :=
  (explicit_end_date_bounds 1 2 0 "month").2.2.2.2 172800000005 (by decide)

/-! ## Claim C3: daily bucketing -/

/-- The dense fill loop unrolls to a mapped `List.range`. -/
lemma fill_daily_eq_map (orders : List OrderRec) :
    ∀ (n : ℕ) (cur de : ℤ), (n : ℤ) = de - cur + 1 →
    fill_daily orders cur de n =
      (List.range n).map
        (fun i => ⟨cur + (i : ℤ), orders_on_day orders (cur + (i : ℤ))⟩) := by
  intro n
  induction n with
  | zero => intro cur de h; simp [fill_daily]
  | succ k ih =>
    intro cur de h
    have hc : cur ≤ de := by omega
    rw [fill_daily, if_pos hc, ih (cur + 1) de (by push_cast at h ⊢; omega),
      List.range_succ_eq_map, List.map_cons, List.map_map]
    refine congrArg₂ _ (by norm_num) (List.map_congr_left fun i _ => ?_)
    have : cur + 1 + (i : ℤ) = cur + ((Nat.succ i : ℕ) : ℤ) := by push_cast; ring
    simp [Function.comp, this]

/-- Membership in `insert_day`. -/
lemma mem_insert_day {a d : ℤ} : ∀ {l : List ℤ}, a ∈ insert_day d l ↔ a = d ∨ a ∈ l := by
  intro l
  induction l with
  | nil => simp [insert_day]
  | cons x xs ih =>
    by_cases hdx : d ≤ x
    · simp [insert_day, hdx]
    · simp [insert_day, hdx, ih]
      tauto

/-- Membership in `sort_days`. -/
lemma mem_sort_days {a : ℤ} : ∀ {l : List ℤ}, a ∈ sort_days l ↔ a ∈ l := by
  intro l
  induction l with
  | nil => simp [sort_days]
  | cons x xs ih => simp [sort_days, mem_insert_day, ih]

/-- Membership in `dedup_days`. -/
lemma mem_dedup_days : ∀ (l : List ℤ) (a : ℤ), a ∈ dedup_days l ↔ a ∈ l := by
  intro l
  induction l with
  | nil => intro a; simp [dedup_days]
  | cons x xs ih =>
    intro a
    show a ∈ (if x ∈ dedup_days xs then dedup_days xs else x :: dedup_days xs) ↔
      a ∈ x :: xs
    by_cases hx : x ∈ dedup_days xs
    · rw [if_pos hx, ih, List.mem_cons]
      have hxx : x ∈ xs := (ih x).mp hx
      constructor
      · exact fun h => Or.inr h
      · rintro (rfl | h)
        · exact hxx
        · exact h
    · rw [if_neg hx, List.mem_cons, List.mem_cons, ih]

/-- A day that some order of `l` was created on has a positive count. -/
lemma orders_on_day_pos (l : List OrderRec) (d : ℤ)
    (h : ∃ o ∈ l, dateOf o.created_at = d) : 0 < orders_on_day l d := by
  obtain ⟨o, ho, hod⟩ := h
  rw [orders_on_day]
  exact List.length_pos.mpr
    (List.ne_nil_of_mem (List.mem_filter.mpr ⟨ho, by simp [hod]⟩))

/-- Every bucket emitted by the sparse `_calculate_daily_orders` has at
least one underlying order. -/
lemma svc_daily_bucket_pos (orders : List OrderRec) (ds de : Option ℤ) (now : ℤ) :
    ∀ b ∈ svc_calculate_daily_orders orders ds de now, 0 < b.orders := by
  intro b hb
  simp only [svc_calculate_daily_orders, distinct_days, List.mem_map] at hb
  obtain ⟨d, hd, rfl⟩ := hb
  rw [mem_sort_days, mem_dedup_days, List.mem_map] at hd
  obtain ⟨o, ho, hod⟩ := hd
  exact orders_on_day_pos _ d ⟨o, ho, hod⟩

/-- Claim C3, counterexample.  One order on day 0 over the 3-day range
`[0, 2]`: the servicesv2 daily bucketing returns a single bucket, not 3 —
days with zero rows are omitted (the range is sparse), while the
time-trends view version of the same aggregation returns 3. -/
theorem sparse_daily_orders_cex :
    svc_calculate_daily_orders [⟨"new", 0⟩] (some 0) (some 2) 0 = [⟨0, 1⟩] ∧
    (tt_get_daily_orders [⟨"new", 0⟩] 0 2).length = 3 ∧
    (svc_calculate_daily_orders [⟨"new", 0⟩] (some 0) (some 2) 0).length ≠ 3 := by
  decide

/-- Claim C3, amended.  Over any range of `N = e - s + 1` calendar days,
`TimeTrendsAnalyticsAPIView._get_daily_orders` returns exactly `N` buckets,
the `i`-th keyed by day `s + i` in order, with count
`orders_on_day orders (s + i)` — which is 0 for days with no underlying
rows.  `AdminAnalyticsService._calculate_daily_orders`, by contrast, emits
a bucket only for days with at least one order (every bucket it returns
has positive count), so its output is sparse. -/
theorem daily_bucketing_dense_vs_sparse (orders : List OrderRec)
    (s e now : ℤ) (h : s ≤ e) :
    (tt_get_daily_orders orders s e).length = (e - s + 1).toNat ∧
    (∀ i : ℕ, i < (e - s + 1).toNat →
      (tt_get_daily_orders orders s e)[i]? =
        some ⟨s + (i : ℤ), orders_on_day orders (s + (i : ℤ))⟩) ∧
    (∀ d : ℤ, (∀ o ∈ orders, dateOf o.created_at ≠ d) →
      orders_on_day orders d = 0) ∧
    (∀ b ∈ svc_calculate_daily_orders orders (some s) (some e) now,
      0 < b.orders) := by
  have key := fill_daily_eq_map orders (e - s + 1).toNat s e
    (by rw [Int.toNat_of_nonneg (by omega)])
  refine ⟨?_, ?_, ?_, svc_daily_bucket_pos orders (some s) (some e) now⟩
  · rw [tt_get_daily_orders, key, List.length_map, List.length_range]
  · intro i hi
    rw [tt_get_daily_orders, key, List.getElem?_map, List.getElem?_range hi]
    rfl
  · intro d hd
    rw [orders_on_day, List.length_eq_zero, List.filter_eq_nil_iff]
    intro o ho
    simpa using hd o ho

/-- Claim C3, witness. -/
theorem daily_bucketing_dense_vs_sparse_witness :
    (tt_get_daily_orders [⟨"new", 0⟩] 0 1).length = ((1 : ℤ) - 0 + 1).toNat ∧
    (∀ i : ℕ, i < ((1 : ℤ) - 0 + 1).toNat →
      (tt_get_daily_orders [⟨"new", 0⟩] 0 1)[i]? =
        some ⟨0 + (i : ℤ), orders_on_day [⟨"new", 0⟩] (0 + (i : ℤ))⟩) ∧
    (∀ d : ℤ, (∀ o ∈ [(⟨"new", 0⟩ : OrderRec)], dateOf o.created_at ≠ d) →
      orders_on_day [⟨"new", 0⟩] d = 0) ∧
    (∀ b ∈ svc_calculate_daily_orders [⟨"new", 0⟩] (some 0) (some 1) 0,
      0 < b.orders) :=
  daily_bucketing_dense_vs_sparse [⟨"new", 0⟩] 0 1 0 (by decide)

/-! ## Claim C4: status-distribution buckets partition the total -/

/-- The four status groups (`delivered`, the `in_progress` union, `new`,
`declined`) partition any list of orders with valid statuses. -/
lemma status_filter_partition : ∀ (l : List OrderRec),
    (∀ o ∈ l, o.order_status ∈ order_status_choices) →
    (l.filter (fun o => o.order_status = "delivered")).length +
    (l.filter (fun o => o.order_status ∈ in_progress_statuses)).length +
    (l.filter (fun o => o.order_status = "new")).length +
    (l.filter (fun o => o.order_status = "declined")).length = l.length := by
  intro l
  induction l with
  | nil => intro _; rfl
  | cons o l ih =>
    intro h
    have ho := h o (List.mem_cons_self o l)
    have hl := ih (fun o' ho' => h o' (List.mem_cons_of_mem o ho'))
    simp only [order_status_choices, List.mem_cons, List.not_mem_nil,
      or_false] at ho
    rcases ho with h9 | h9 | h9 | h9 | h9 | h9 | h9 | h9 | h9 <;>
      · simp only [List.filter_cons, h9, in_progress_statuses, List.mem_cons,
          List.not_mem_nil, or_false, or_true, true_or, String.reduceEq,
          reduceIte, decide_False, decide_True, Bool.false_eq_true,
          if_false, if_true, List.length_cons] at hl ⊢
        omega

/-- Claim C4.  For every date-filtered period, the counts of the four
status-distribution buckets (`delivered`, `in_progress` = union of
confirmed/cad_done/user_confirmed/rpt_done/casting/ready, `new`,
`declined`) sum to the total number of orders in the period, provided each
order's status is one of the model's nine `ORDER_STATUS_CHOICES`. -/
theorem status_distribution_total (orders : List OrderRec) (ds de : Option ℤ)
    (h : ∀ o ∈ orders, o.order_status ∈ order_status_choices) :
    (((calculate_order_analytics orders ds de).status_distribution).map
        StatusBucket.count).sum = (filter_by_date orders ds de).length := by
  have h' : ∀ o ∈ filter_by_date orders ds de,
      o.order_status ∈ order_status_choices := by
    intro o ho
    apply h
    rcases ds with _ | d1 <;> rcases de with _ | d2 <;>
      simp only [filter_by_date] at ho
    · exact ho
    · exact ho
    · exact ho
    · exact (List.mem_filter.mp ho).1
  have hp := status_filter_partition (filter_by_date orders ds de) h'
  simp only [calculate_order_analytics, status_distribution, List.map_cons,
    List.map_nil, List.sum_cons, List.sum_nil]
  omega

/-- Claim C4, witness. -/
theorem status_distribution_total_witness :
    (((calculate_order_analytics
        [⟨"new", 0⟩, ⟨"casting", 1⟩, ⟨"declined", 2⟩, ⟨"delivered", 3⟩]
        none none).status_distribution).map StatusBucket.count).sum =
      (filter_by_date
        [⟨"new", 0⟩, ⟨"casting", 1⟩, ⟨"declined", 2⟩, ⟨"delivered", 3⟩]
        none none).length :=
  status_distribution_total _ none none (by decide)

/-! ## Claim C6: invalid explicit ranges -/

/-- Claim C6, counterexample.  With explicit dates day 19732 > day 19727
the spec demands `InvalidRangeError`, but `_get_date_range` returns the
inverted range unchanged (resolution succeeds, the report is built over
it); and with an unparseable start date, `parse_date_range` silently
returns the very same trailing-30-day window a parameterless request gets —
a full report, indistinguishable from a successful default one. -/
theorem invalid_range_claim_cex :
    resolve_period_spec (some (some 19732)) (some (some 19727)) none 999 =
      .error .startAfterEnd ∧
    svc_get_date_range none (some (some 19732)) (some (some 19727)) 999 =
      (some 19732, some 19727) ∧
    resolve_period_spec (some none) (some (some 19727)) none 999 =
      .error .unparseable ∧
    parse_date_range (some none) (some (some 19727)) none 999 =
      parse_date_range none none none 999 := by
  exact ⟨rfl, rfl, rfl, rfl⟩

/-- Claim C6, amended.  Only requests validated by
`DateRangeInputSerializer` are rejected on `start_date > end_date` or an
unparseable date; `AdminAnalyticsService._get_date_range` accepts an
inverted range unchanged, and `parse_date_range` silently falls back to
the trailing-30-day window on an unparseable date — in both cases a report
is produced, and no `InvalidRangeError` exists in the source. -/
theorem invalid_range_handling (s e now : ℤ) (rd : Option ℤ) (h : s > e) :
    date_range_serializer_valid (some (some s)) (some (some e)) none = false ∧
    date_range_serializer_valid (some none) (some rd) none = false ∧
    svc_get_date_range none (some (some s)) (some (some e)) now =
      (some s, some e) ∧
    parse_date_range (some none) (some rd) none now =
      (now - 30 * usecPerDay, now) := by
  refine ⟨by simp [date_range_serializer_valid, h], rfl, rfl, ?_⟩
  cases rd <;> rfl

/-- Claim C6, witness. -/
theorem invalid_range_handling_witness :
    date_range_serializer_valid (some (some 10)) (some (some 5)) none = false ∧
    date_range_serializer_valid (some none) (some none) none = false ∧
    svc_get_date_range none (some (some 10)) (some (some 5)) 0 =
      (some 10, some 5) ∧
    parse_date_range (some none) (some none) none 0 =
      (0 - 30 * usecPerDay, 0) :=
  invalid_range_handling 10 5 0 none (by decide)

/-! ## Claim C7: unknown period keywords -/

/-- Claim C7, counterexample.  On the unknown keyword `"bogus"`,
`parse_date_range` falls back to the trailing-30-day window but
`AdminAnalyticsService._get_date_range` falls back to the unbounded
`(None, None)` range — the two assemblers do not share the fallback — and
`DateRangeInputSerializer` rejects the keyword outright. -/
theorem unknown_period_claim_cex :
    parse_date_range none none (some "bogus") 999 =
      (999 - 30 * usecPerDay, 999) ∧
    svc_get_date_range (some "bogus") none none 999 = (none, none) ∧
    svc_get_date_range (some "bogus") none none 999 ≠
      (some (dateOf (999 - 30 * usecPerDay)), some (dateOf (999 : ℤ))) ∧
    date_range_serializer_valid none none (some "bogus") = false := by
  exact ⟨rfl, rfl, by decide, rfl⟩

/-- Claim C7, amended.  For every period keyword outside the recognized
enum: `parse_date_range`-based assemblers resolve to the trailing-30-day
window, but `AdminAnalyticsService._get_date_range` resolves to the
unbounded `(None, None)` range, and serializer-validated endpoints reject
the request — the fallback is not identical across assemblers. -/
theorem unknown_period_fallbacks (p : String) (now : ℤ)
    (h : p ∉ ["today", "week", "month", "quarter", "year"]) :
    parse_date_range none none (some p) now = (now - 30 * usecPerDay, now) ∧
    svc_get_date_range (some p) none none now = (none, none) ∧
    date_range_serializer_valid none none (some p) = false := by
  simp only [List.mem_cons, List.not_mem_nil, or_false, not_or] at h
  obtain ⟨h1, h2, h3, h4, h5⟩ := h
  refine ⟨?_, ?_, ?_⟩
  · simp [parse_date_range, h1, h2, h3, h4, h5]
  · simp [svc_get_date_range, h1, h2, h3, h4, h5]
  · simp [date_range_serializer_valid, h1, h2, h3, h4, h5]

/-- Claim C7, witness. -/
theorem unknown_period_fallbacks_witness :
    parse_date_range none none (some "bogus") 0 =
      (0 - 30 * usecPerDay, 0) ∧
    svc_get_date_range (some "bogus") none none 0 = (none, none) ∧
    date_range_serializer_valid none none (some "bogus") = false :=
  unknown_period_fallbacks "bogus" 0 (by decide)

end Rcj
